import Mathlib

/-!
Verification of the questionnaire-scoring, risk-tier and CSV-logging logic of
the mental-health screening applications in this repository.

The repository contains several near-duplicate Streamlit variants. The logic
the claims are about lives in four of them, embedded here in one namespace per
source file:

* `App`        — `app.py`          (`_risk_from_text`, `to_risk`, `append_log_row`)
* `AppV4`      — `app_v4.py`       (`risk_tier_map`, suggested-action lookup,
                                    `save_prediction_log`)
* `AppPreFinal`— `app_Pre_final.py`(`score_stress`, `score_anxiety`,
                                    `score_depression`, `risk_tier_from_label`)
* `AppV10`     — `app_v10.py`      (`score_and_risk`, `load_safe_csv`,
                                    the screening page's private-mode save block)

Questionnaire responses are embedded as `List Int` (the Python values are small
exact integers; Python's intermediate `float(sum(...))` is exact on them).
The CSV log is embedded as an explicit file state: `Option (List String)` for
the line-oriented appenders (`none` = file absent), and `Option DiskFile` for
`app_v10.py`, whose loader distinguishes a parseable from a corrupted file.

Definitions under `Spec` transcribe the specification's band table and keyword
table; they are compared against the code-side definitions in the theorems.
-/

namespace MentalHealth

/-- `listPrefixEq p l` is true when `p` is an initial segment of `l`
(helper for the substring test below). -/
def listPrefixEq : List Char → List Char → Bool
  | [], _ => true
  | _ :: _, [] => false
  | a :: as, b :: bs => a == b && listPrefixEq as bs

/-- Python's `pat in s` on strings: `pat` occurs contiguously in `s`. -/
def strContains (s pat : String) : Bool :=
  (List.range (s.data.length + 1)).any (fun i => listPrefixEq pat.data (s.data.drop i))

/-- Python's `str.lower()` (the labels involved are ASCII, on which
`Char.toLower` agrees with Python). Written by mapping over the character
list so that it evaluates by kernel reduction. -/
def pyLower (s : String) : String :=
  String.mk (s.data.map Char.toLower)

/-- Python's `str.isdigit()`: non-empty and every character a digit. -/
def pyIsDigit (s : String) : Bool :=
  !s.data.isEmpty && s.data.all Char.isDigit

namespace AppV4

/-- `app_v4.py` lines 154-179, `risk_tier_map(label)`: lower-case the label and
scan the keyword table in insertion order (minimal, mild, moderate, severe);
first match wins; no match gives "Unknown". -/
def risk_tier_map (label : String) : String :=
  let lowered := pyLower label
  if strContains lowered "minimal" then "Low"
  else if strContains lowered "mild" then "Moderate"
  else if strContains lowered "moderate" then "High"
  else if strContains lowered "severe" then "Critical"
  else "Unknown"

/-- `app_v4.py` lines 370-375: the suggested-actions dictionary keyed by risk
tier, with `.get`'s default "Monitor your mental health regularly.". -/
def suggested_actions (risk : String) : String :=
  if risk = "Low" then
    "Maintain a healthy routine • Sleep 7–9h • Practice daily relaxation"
  else if risk = "Moderate" then
    "Engage in regular exercise • Keep a journal • Follow a balanced diet"
  else if risk = "High" then
    "Seek counseling • Reduce workload • Practice mindfulness"
  else if risk = "Critical" then
    "Consult a mental health professional immediately • Rely on your support network"
  else "Monitor your mental health regularly."

/-- The record `save_prediction_log` writes (`app_v4.py` lines 379-386). -/
structure PredRow where
  datetime : String
  target : String
  predicted_label : String
  risk_tier : String
  deriving DecidableEq

/-- The header row pandas writes for a `PredRow` on first creation. -/
def predHeader : String := "datetime,target,predicted_label,risk_tier"

/-- The CSV data line for one `PredRow`. -/
def predLine (r : PredRow) : String :=
  r.datetime ++ "," ++ r.target ++ "," ++ r.predicted_label ++ "," ++ r.risk_tier

/-- `app_v4.py` lines 182-196, `save_prediction_log(row)`: if the log file
exists, append one data line without a header; otherwise create it as a header
line followed by the data line. The file is `none` when absent, otherwise the
list of its lines. -/
def save_prediction_log (row : PredRow) : Option (List String) → List String
  | some lines => lines ++ [predLine row]
  | none => [predHeader, predLine row]

end AppV4

namespace App

/-- `app.py` lines 63-88, `RISK_PLAN[target]["tiers"]`: per-target tier table
keyed by the digit strings "0".."3", each entry a tier name and action list. -/
def risk_plan_tiers (target : String) : List (String × String × List String) :=
  if target = "Anxiety" then
    [("0", ("Low", ["Keep routine", "Sleep 7–9h", "30m activity"])),
     ("1", ("Mild", ["Breathing 4-7-8", "Journaling 10m"])),
     ("2", ("Moderate", ["Peer support", "Counseling signup link"])),
     ("3", ("Severe", ["Contact counselor", "Follow-up within 48h"]))]
  else if target = "Stress" then
    [("0", ("Low", ["Pomodoro 25/5", "Walk 15m"])),
     ("1", ("Mild", ["Time-blocking", "Say no to one task"])),
     ("2", ("Moderate", ["Advisor meeting", "Brief CBT worksheet"])),
     ("3", ("Severe", ["Escalate to student services", "Wellbeing check-in"]))]
  else if target = "Depression" then
    [("0", ("Low", ["Gratitude (3 items)", "Social contact 10m"])),
     ("1", ("Mild", ["Behavioral activation: 1 small task/day"])),
     ("2", ("Moderate", ["Counseling referral", "Follow-up in 72h"])),
     ("3", ("Severe", ["Immediate support from services", "Safety plan review"]))]
  else []

/-- `RISK_PLAN["Anxiety"]["tiers"][key][1]`: the action list of the given
Anxiety tier key, as `_risk_from_text` indexes it. -/
def anxiety_tier_actions (key : String) : List String :=
  match (risk_plan_tiers "Anxiety").find? (fun kv => kv.1 == key) with
  | some kv => kv.2.2
  | none => []

/-- `app.py` lines 90-97, `_risk_from_text(label_text)`: lower-case the label
and test, in this order, severe, moderate, minimal, mild; unmatched labels fall
through to ("Low", tier-0 actions). Note: minimal maps to "Mild". -/
def risk_from_text (label_text : String) : String × List String :=
  let lt := pyLower label_text
  if strContains lt "severe" then ("Severe", anxiety_tier_actions "3")
  else if strContains lt "moderate" then ("Moderate", anxiety_tier_actions "2")
  else if strContains lt "minimal" then ("Mild", anxiety_tier_actions "1")
  else if strContains lt "mild" then ("Mild", anxiety_tier_actions "1")
  else ("Low", anxiety_tier_actions "0")

/-- `app.py` lines 99-105, `to_risk(target_name, predicted_label)`: if the
label prints as a digit string that is a key of the target's tier table, take
that entry; otherwise fall back to `risk_from_text`. -/
def to_risk (target_name : String) (predicted_label : String) : String × List String :=
  let tiers := risk_plan_tiers target_name
  match (if pyIsDigit predicted_label then
           tiers.find? (fun kv => kv.1 == predicted_label)
         else none) with
  | some kv => kv.2
  | none => risk_from_text predicted_label

/-- The record `append_log_row` writes (`app.py` lines 139-147). -/
structure LogRow where
  timestamp : String
  target : String
  prediction : String
  risk_tier : String
  deriving DecidableEq

/-- The header row pandas writes for a `LogRow` on first creation. -/
def logHeader : String := "timestamp,target,prediction,risk_tier"

/-- The CSV data line for one `LogRow`. -/
def logLine (r : LogRow) : String :=
  r.timestamp ++ "," ++ r.target ++ "," ++ r.prediction ++ "," ++ r.risk_tier

/-- `app.py` lines 139-147, `append_log_row`: append one data line to an
existing file, or create the file as header plus the data line. -/
def append_log_row (r : LogRow) : Option (List String) → List String
  | some lines => lines ++ [logLine r]
  | none => [logHeader, logLine r]

end App

namespace AppPreFinal

/-- `app_Pre_final.py` lines 52-60, `score_stress(pss_scores)`: the total is
the plain sum; bands total ≤ 13, ≤ 26, else. -/
def score_stress (pss_scores : List Int) : Int × String :=
  let total := pss_scores.sum
  let label :=
    if total ≤ 13 then "Low Perceived Stress"
    else if total ≤ 26 then "Moderate Stress"
    else "High Perceived Stress"
  (total, label)

/-- `app_Pre_final.py` lines 63-73, `score_anxiety(gad_scores)`: bands
total ≤ 4, ≤ 9, ≤ 14, else. -/
def score_anxiety (gad_scores : List Int) : Int × String :=
  let total := gad_scores.sum
  let label :=
    if total ≤ 4 then "Minimal Anxiety"
    else if total ≤ 9 then "Mild Anxiety"
    else if total ≤ 14 then "Moderate Anxiety"
    else "Severe Anxiety"
  (total, label)

/-- `app_Pre_final.py` lines 76-88, `score_depression(phq_scores)`: bands
total ≤ 4, ≤ 9, ≤ 14, ≤ 19, else. -/
def score_depression (phq_scores : List Int) : Int × String :=
  let total := phq_scores.sum
  let label :=
    if total ≤ 4 then "No / Minimal Depression"
    else if total ≤ 9 then "Mild Depression"
    else if total ≤ 14 then "Moderate Depression"
    else if total ≤ 19 then "Moderately Severe Depression"
    else "Severe Depression"
  (total, label)

/-- `app_Pre_final.py` lines 91-100, `risk_tier_from_label(label)`: tests, in
this order, severe → Critical, high → High, moderate or mild → Moderate, and
everything else → Low. -/
def risk_tier_from_label (label : String) : String :=
  let text := pyLower label
  if strContains text "severe" then "Critical"
  else if strContains text "high" then "High"
  else if strContains text "moderate" || strContains text "mild" then "Moderate"
  else "Low"

end AppPreFinal

namespace AppV10

/-- `app_v10.py` lines 489-550, `score_and_risk(values, target)`: sliders give
values 1-5; each is shifted down by one, summed, and banded. Anxiety and
Depression use the cut-offs ≤ 4, ≤ 9, ≤ 14, else; Stress uses ≤ 13, ≤ 26, else
with only three levels (Minimal, Moderate, Severe); any other target is banded
by the fraction of its maximum (the Python float division is embedded as exact
rational division). Returns (label, risk tier, total, max score). -/
def score_and_risk (values : List Int) (target : String) : String × String × Int × Int :=
  if target = "Anxiety" then
    let scaled := values.map (fun v => v - 1)
    let total := scaled.sum
    let max_score : Int := 3 * 7
    let lr :=
      if total ≤ 4 then ("Minimal", "Low")
      else if total ≤ 9 then ("Mild", "Moderate")
      else if total ≤ 14 then ("Moderate", "High")
      else ("Severe", "Critical")
    (lr.1 ++ " Anxiety", lr.2, total, max_score)
  else if target = "Depression" then
    let scaled := values.map (fun v => v - 1)
    let total := scaled.sum
    let max_score : Int := 3 * 9
    let lr :=
      if total ≤ 4 then ("Minimal", "Low")
      else if total ≤ 9 then ("Mild", "Moderate")
      else if total ≤ 14 then ("Moderate", "High")
      else ("Severe", "Critical")
    (lr.1 ++ " Depression", lr.2, total, max_score)
  else if target = "Stress" then
    let scaled := values.map (fun v => v - 1)
    let total := scaled.sum
    let max_score : Int := 4 * 10
    let lr :=
      if total ≤ 13 then ("Minimal", "Low")
      else if total ≤ 26 then ("Moderate", "High")
      else ("Severe", "Critical")
    (lr.1 ++ " Stress", lr.2, total, max_score)
  else
    let scaled : List Int := values.map (fun v => v - 1)
    let total : Int := scaled.sum
    let max_score : Int := 4 * values.length
    let pct : Rat := if max_score = 0 then 0 else (total : Rat) / (max_score : Rat)
    let lr :=
      if pct ≤ (1 : Rat) / 4 then ("Minimal", "Low")
      else if pct ≤ (1 : Rat) / 2 then ("Mild", "Moderate")
      else if pct ≤ (3 : Rat) / 4 then ("Moderate", "High")
      else ("Severe", "Critical")
    (lr.1 ++ " " ++ target, lr.2, total, max_score)

/-- The on-disk state of one CSV file for `load_safe_csv`: `parseable` is
whether `pd.read_csv` succeeds on it, and `rows` are the data rows it parses
to (meaningful when `parseable`; a header-only file has `rows = []`). -/
structure DiskFile where
  parseable : Bool
  rows : List (List String)
  deriving DecidableEq

/-- `app_v10.py` lines 125-140, `load_safe_csv(path)` (the same function, with
an identical body, appears in `app_v1.py` lines 31-39 and `app_model.py` lines
33-44): a missing file gives an empty DataFrame and the disk is untouched; an
unparseable file is removed from disk and an empty DataFrame is returned; a
parseable file is returned as its rows with the disk untouched. The function
itself returns normally in every case. The result pairs the disk state after
the call with the DataFrame read. -/
def load_safe_csv : Option DiskFile → Option DiskFile × List (List String)
  | none => (none, [])
  | some f => if f.parseable then (some f, f.rows) else (none, [])

/-- What the screening page displays for a prediction (`app_v10.py` line 810):
the label, the risk tier, the total and the maximum score. -/
structure ScreeningOutput where
  label : String
  risk : String
  score : Int
  max_score : Int
  deriving DecidableEq

/-- The displayed result, packaged from `score_and_risk`. -/
def screening_output (values : List Int) (target : String) : ScreeningOutput :=
  let r := score_and_risk values target
  ⟨r.1, r.2.1, r.2.2.1, r.2.2.2⟩

/-- The row the screening save block builds (`app_v10.py` lines 909-923):
datetime, language, user name, age group, target, label, risk, score,
max score. -/
def new_log_row (now lang name age target : String) (out : ScreeningOutput) : List String :=
  [now, lang, name, age, target, out.label, out.risk, toString out.score, toString out.max_score]

/-- `app_v10.py` lines 809-931, the screening predict handler restricted to
its computation and save logic: compute and display `score_and_risk`; then,
only when `private_mode` is off, reload the log with `load_safe_csv` and write
it back with the new row appended (pandas rewrites the whole file, so the
result is a parseable file whose rows are the reloaded rows plus the new one;
an empty reload writes a fresh one-row file). When `private_mode` is on, the
save block is skipped and the log state is returned unchanged. -/
def screening_submit (private_mode : Bool) (now lang name age : String)
    (values : List Int) (target : String) (log : Option DiskFile) :
    ScreeningOutput × Option DiskFile :=
  let out := screening_output values target
  if private_mode then (out, log)
  else
    let df := (load_safe_csv log).2
    let row := new_log_row now lang name age target out
    if df.isEmpty then (out, some (DiskFile.mk true [row]))
    else (out, some (DiskFile.mk true (df ++ [row])))

end AppV10

namespace Spec

/-- Transcribed from the spec's band table: GAD-7 (max 21): 0-4 Minimal,
5-9 Mild, 10-14 Moderate, 15-21 Severe. Band names are written with the
instrument suffix the code's labels carry. -/
def gad7_label (t : Int) : String :=
  if 0 ≤ t ∧ t ≤ 4 then "Minimal Anxiety"
  else if 5 ≤ t ∧ t ≤ 9 then "Mild Anxiety"
  else if 10 ≤ t ∧ t ≤ 14 then "Moderate Anxiety"
  else if 15 ≤ t ∧ t ≤ 21 then "Severe Anxiety"
  else "Unknown"

/-- Transcribed from the spec's band table: PHQ-9 (max 27): 0-4 Minimal,
5-9 Mild, 10-14 Moderate, 15-19 Moderately Severe, 20-27 Severe, written with
the label strings `score_depression` uses for those bands. -/
def phq9_label (t : Int) : String :=
  if 0 ≤ t ∧ t ≤ 4 then "No / Minimal Depression"
  else if 5 ≤ t ∧ t ≤ 9 then "Mild Depression"
  else if 10 ≤ t ∧ t ≤ 14 then "Moderate Depression"
  else if 15 ≤ t ∧ t ≤ 19 then "Moderately Severe Depression"
  else if 20 ≤ t ∧ t ≤ 27 then "Severe Depression"
  else "Unknown"

/-- Transcribed from the spec's band table: PSS-10 (max 40): 0-13 Low,
14-26 Moderate, 27-40 High, written with the label strings `score_stress`
uses for those bands. -/
def pss10_label (t : Int) : String :=
  if 0 ≤ t ∧ t ≤ 13 then "Low Perceived Stress"
  else if 14 ≤ t ∧ t ≤ 26 then "Moderate Stress"
  else if 27 ≤ t ∧ t ≤ 40 then "High Perceived Stress"
  else "Unknown"

/-- Transcribed from the spec: the fixed ordered keyword → tier rule list
(minimal → Low, mild → Moderate, moderate → High, severe → Critical). -/
def keyword_rules : List (String × String) :=
  [("minimal", "Low"), ("mild", "Moderate"), ("moderate", "High"), ("severe", "Critical")]

/-- Transcribed from the spec: case-insensitive substring match against
`keyword_rules`, first match wins, unmatched input gives the sentinel
"Unknown". -/
def keyword_tier (label : String) : String :=
  match keyword_rules.find? (fun r => strContains (pyLower label) r.1) with
  | some r => r.2
  | none => "Unknown"

/-- The three instruments of the spec's band table. -/
inductive Instrument where
  | gad7
  | phq9
  | pss10
  deriving DecidableEq

/-- The inclusive severity bands per instrument, with the boundaries shared by
the spec's table and the code's if-chains (`score_anxiety`, `score_depression`,
`score_stress` in `app_Pre_final.py`). -/
def bands : Instrument → List (Int × Int)
  | Instrument.gad7 => [(0, 4), (5, 9), (10, 14), (15, 21)]
  | Instrument.phq9 => [(0, 4), (5, 9), (10, 14), (15, 19), (20, 27)]
  | Instrument.pss10 => [(0, 13), (14, 26), (27, 40)]

/-- The maximum total per instrument. -/
def max_total : Instrument → Int
  | Instrument.gad7 => 21
  | Instrument.phq9 => 27
  | Instrument.pss10 => 40

/-- Transcribed from the spec's input constraint for PSS-10: 10 items, each
in 0-4. -/
def valid_pss (l : List Int) : Prop :=
  l.length = 10 ∧ ∀ x ∈ l, 0 ≤ x ∧ x ≤ 4

instance (l : List Int) : Decidable (valid_pss l) := by
  unfold valid_pss
  infer_instance

end Spec

/-- Sum of a list after shifting every element down by one, as the 1-5 sliders
of `app_v10.py` are rescaled before summation. -/
theorem sum_map_sub_one (l : List Int) :
    (l.map (fun x => x - 1)).sum = l.sum - l.length := by
  induction l with
  | nil => simp
  | cons a t ih =>
    simp only [List.map_cons, List.sum_cons, ih, List.length_cons]
    push_cast
    ring

/-- C1 counterexample: the claimed keyword table (minimal → Low,
moderate → High) holds only in `app_v4.py`. `app.py`'s fallback maps a label
containing "minimal" to "Mild", and `app_Pre_final.py` maps a label containing
"moderate" to "Moderate", so the claim is false for those risk-tier
mappings. -/
theorem C1_counterexample :
    (App.risk_from_text "Minimal Anxiety").1 = "Mild"
    ∧ ("Mild" : String) ≠ "Low"
    ∧ AppPreFinal.risk_tier_from_label "Moderate Anxiety" = "Moderate"
    ∧ ("Moderate" : String) ≠ "High" := by decide

/-- C1 amended: `app_v4.py`'s `risk_tier_map` agrees with the spec's ordered
keyword table (case-insensitive substring, first match wins) on every label;
`app.py`'s `_risk_from_text` instead yields Severe/Moderate/Mild/Mild for the
four keywords with default "Low", and `app_Pre_final.py`'s
`risk_tier_from_label` yields Low/Moderate/Moderate/Critical with default
"Low". -/
theorem C1_amended (label : String) :
    AppV4.risk_tier_map label = Spec.keyword_tier label
    ∧ (App.risk_from_text "Minimal Anxiety").1 = "Mild"
    ∧ (App.risk_from_text "Mild Anxiety").1 = "Mild"
    ∧ (App.risk_from_text "Moderate Anxiety").1 = "Moderate"
    ∧ (App.risk_from_text "Severe Anxiety").1 = "Severe"
    ∧ AppPreFinal.risk_tier_from_label "Minimal Anxiety" = "Low"
    ∧ AppPreFinal.risk_tier_from_label "Mild Anxiety" = "Moderate"
    ∧ AppPreFinal.risk_tier_from_label "Moderate Anxiety" = "Moderate"
    ∧ AppPreFinal.risk_tier_from_label "Severe Anxiety" = "Critical" := by
  refine ⟨?_, by decide, by decide, by decide, by decide,
    by decide, by decide, by decide, by decide⟩
  unfold AppV4.risk_tier_map Spec.keyword_tier Spec.keyword_rules
  cases h1 : strContains (pyLower label) "minimal" <;>
    cases h2 : strContains (pyLower label) "mild" <;>
      cases h3 : strContains (pyLower label) "moderate" <;>
        cases h4 : strContains (pyLower label) "severe" <;>
          simp [List.find?, h1, h2, h3, h4]

/-- C2 counterexample: `app_v10.py`'s `score_and_risk` has no
Moderately-Severe band for PHQ-9 — a Depression response with rescaled total
15 (inside the spec table's 15-19 "Moderately Severe" band) is labelled
"Severe Depression". -/
theorem C2_counterexample :
    AppV10.score_and_risk [5, 5, 5, 4, 1, 1, 1, 1, 1] "Depression"
        = ("Severe Depression", "Critical", 15, 27)
    ∧ Spec.phq9_label 15 = "Moderately Severe Depression"
    ∧ ("Severe Depression" : String) ≠ "Moderately Severe Depression" := by decide

/-- C2 amended: `app_Pre_final.py`'s three scorers map every in-range total to
exactly the spec band table's label (including PHQ-9's 15-19 Moderately Severe
band, and PSS-10's 13 → Low-band / 14 → Moderate-band boundary);
`app_v10.py`'s `score_and_risk` honours the same 13/14 PSS-10 boundary but
labels the PSS-10 bands Minimal/Moderate/Severe and merges PHQ-9 totals 15-27
into Severe. -/
theorem C2_amended (gad phq pss : List Int)
    (hg0 : 0 ≤ gad.sum) (hg1 : gad.sum ≤ 21)
    (hp0 : 0 ≤ phq.sum) (hp1 : phq.sum ≤ 27)
    (hs0 : 0 ≤ pss.sum) (hs1 : pss.sum ≤ 40) :
    (AppPreFinal.score_anxiety gad).2 = Spec.gad7_label gad.sum
    ∧ (AppPreFinal.score_depression phq).2 = Spec.phq9_label phq.sum
    ∧ (AppPreFinal.score_stress pss).2 = Spec.pss10_label pss.sum
    ∧ AppPreFinal.score_stress [4, 4, 4, 1, 0, 0, 0, 0, 0, 0] = (13, "Low Perceived Stress")
    ∧ AppPreFinal.score_stress [4, 4, 4, 2, 0, 0, 0, 0, 0, 0] = (14, "Moderate Stress")
    ∧ AppV10.score_and_risk [5, 5, 5, 2, 1, 1, 1, 1, 1, 1] "Stress"
        = ("Minimal Stress", "Low", 13, 40)
    ∧ AppV10.score_and_risk [5, 5, 5, 3, 1, 1, 1, 1, 1, 1] "Stress"
        = ("Moderate Stress", "High", 14, 40) := by
  refine ⟨?_, ?_, ?_, by decide, by decide, by decide, by decide⟩
  · simp only [AppPreFinal.score_anxiety, Spec.gad7_label]
    split_ifs <;> first | rfl | omega
  · simp only [AppPreFinal.score_depression, Spec.phq9_label]
    split_ifs <;> first | rfl | omega
  · simp only [AppPreFinal.score_stress, Spec.pss10_label]
    split_ifs <;> first | rfl | omega

/-- C2 witness: the amended band statement applied at concrete in-range
responses (GAD-7 total 21). -/
theorem C2_witness :
    (AppPreFinal.score_anxiety [3, 3, 3, 3, 3, 3, 3]).2
      = Spec.gad7_label (List.sum [3, 3, 3, 3, 3, 3, 3]) :=
  (C2_amended [3, 3, 3, 3, 3, 3, 3] [1, 1, 1, 1, 1, 1, 1, 1, 1]
    [2, 2, 2, 2, 2, 2, 2, 2, 2, 2] (by decide) (by decide) (by decide)
    (by decide) (by decide) (by decide)).1

/-- C3: for every instrument and every integer total in range, exactly one
severity band of the (spec- and code-shared) band table matches; and each
scorer's label is a function of the total alone, so scoring never falls
through and always yields exactly one label. -/
theorem C3_bands (i : Spec.Instrument) (t : Int)
    (h0 : 0 ≤ t) (h1 : t ≤ Spec.max_total i) :
    (Spec.bands i).countP (fun b => decide (b.1 ≤ t ∧ t ≤ b.2)) = 1
    ∧ (∀ l1 l2 : List Int, l1.sum = l2.sum →
        (AppPreFinal.score_anxiety l1).2 = (AppPreFinal.score_anxiety l2).2
        ∧ (AppPreFinal.score_depression l1).2 = (AppPreFinal.score_depression l2).2
        ∧ (AppPreFinal.score_stress l1).2 = (AppPreFinal.score_stress l2).2) := by
  constructor
  · cases i <;>
      (simp only [Spec.max_total] at h1; interval_cases t <;> decide)
  · intro l1 l2 h
    refine ⟨?_, ?_, ?_⟩ <;>
      simp [AppPreFinal.score_anxiety, AppPreFinal.score_depression,
        AppPreFinal.score_stress, h]

/-- C3 witness: the exactly-one-band count at GAD-7, total 7. -/
theorem C3_witness :
    (Spec.bands Spec.Instrument.gad7).countP
        (fun b => decide (b.1 ≤ (7 : Int) ∧ (7 : Int) ≤ b.2)) = 1 :=
  (C3_bands Spec.Instrument.gad7 7 (by decide) (by decide)).1

/-- C4: for responses of the declared length with every element in the
declared range, the scorers' totals are the plain sum of the elements
(`app_Pre_final.py`), respectively the sum after the declared 1-5 → 0-4 shift
(`app_v10.py`, equal to the raw sum minus the item count). -/
theorem C4_totals (pss gad phq v : List Int)
    (hplen : pss.length = 10) (hpr : ∀ x ∈ pss, 0 ≤ x ∧ x ≤ 4)
    (hglen : gad.length = 7) (hgr : ∀ x ∈ gad, 0 ≤ x ∧ x ≤ 3)
    (hdlen : phq.length = 9) (hdr : ∀ x ∈ phq, 0 ≤ x ∧ x ≤ 3)
    (hvlen : v.length = 7) (hvr : ∀ x ∈ v, 1 ≤ x ∧ x ≤ 5) :
    (AppPreFinal.score_stress pss).1 = pss.sum
    ∧ (AppPreFinal.score_anxiety gad).1 = gad.sum
    ∧ (AppPreFinal.score_depression phq).1 = phq.sum
    ∧ (AppV10.score_and_risk v "Anxiety").2.2.1 = (v.map (fun x => x - 1)).sum
    ∧ (AppV10.score_and_risk v "Anxiety").2.2.1 = v.sum - 7 := by
  refine ⟨rfl, rfl, rfl, ?_, ?_⟩
  · simp only [AppV10.score_and_risk]
    split_ifs <;> rfl
  · have h := sum_map_sub_one v
    rw [hvlen] at h
    simp only [AppV10.score_and_risk]
    split_ifs <;> simpa using h

/-- C4 witness: the total equations at concrete in-range responses. -/
theorem C4_witness :
    (AppPreFinal.score_stress [2, 2, 2, 2, 2, 2, 2, 2, 2, 2]).1
      = List.sum [2, 2, 2, 2, 2, 2, 2, 2, 2, 2] :=
  (C4_totals [2, 2, 2, 2, 2, 2, 2, 2, 2, 2] [1, 1, 1, 1, 1, 1, 1]
    [1, 1, 1, 1, 1, 1, 1, 1, 1] [3, 3, 3, 3, 3, 3, 3]
    (by decide) (by decide) (by decide) (by decide)
    (by decide) (by decide) (by decide) (by decide)).1

/-- C5 counterexample: no scorer validates its input and no
`InvalidInputError` exists in the repository — a 3-element list with elements
far above the PSS-10 scale is accepted and scored by both variants. -/
theorem C5_counterexample :
    ¬ Spec.valid_pss [9, 9, 9]
    ∧ AppPreFinal.score_stress [9, 9, 9] = (27, "High Perceived Stress")
    ∧ AppV10.score_and_risk [9, 9, 9] "Stress" = ("Moderate Stress", "High", 24, 40) := by
  decide

/-- C5 amended: the scorers perform no length or range validation: every
integer list, of any length and with any elements, is summed and banded to one
of the fixed labels; the range constraint is enforced only by the UI sliders.
(`InvalidInputError` is the spec's recommendation for a clean
reimplementation, not behavior of this code.) -/
theorem C5_amended (pss gad phq v : List Int) :
    (AppPreFinal.score_stress pss).1 = pss.sum
    ∧ ((AppPreFinal.score_stress pss).2 = "Low Perceived Stress"
       ∨ (AppPreFinal.score_stress pss).2 = "Moderate Stress"
       ∨ (AppPreFinal.score_stress pss).2 = "High Perceived Stress")
    ∧ (AppPreFinal.score_anxiety gad).1 = gad.sum
    ∧ ((AppPreFinal.score_anxiety gad).2 = "Minimal Anxiety"
       ∨ (AppPreFinal.score_anxiety gad).2 = "Mild Anxiety"
       ∨ (AppPreFinal.score_anxiety gad).2 = "Moderate Anxiety"
       ∨ (AppPreFinal.score_anxiety gad).2 = "Severe Anxiety")
    ∧ (AppPreFinal.score_depression phq).1 = phq.sum
    ∧ ((AppPreFinal.score_depression phq).2 = "No / Minimal Depression"
       ∨ (AppPreFinal.score_depression phq).2 = "Mild Depression"
       ∨ (AppPreFinal.score_depression phq).2 = "Moderate Depression"
       ∨ (AppPreFinal.score_depression phq).2 = "Moderately Severe Depression"
       ∨ (AppPreFinal.score_depression phq).2 = "Severe Depression")
    ∧ (AppV10.score_and_risk v "Stress").2.2.1 = (v.map (fun x => x - 1)).sum
    ∧ ((AppV10.score_and_risk v "Stress").1 = "Minimal Stress"
       ∨ (AppV10.score_and_risk v "Stress").1 = "Moderate Stress"
       ∨ (AppV10.score_and_risk v "Stress").1 = "Severe Stress") := by
  refine ⟨rfl, ?_, rfl, ?_, rfl, ?_, ?_, ?_⟩
  · simp only [AppPreFinal.score_stress]
    split_ifs <;> simp
  · simp only [AppPreFinal.score_anxiety]
    split_ifs <;> simp
  · simp only [AppPreFinal.score_depression]
    split_ifs <;> simp
  · simp only [AppV10.score_and_risk, String.reduceEq, reduceIte]
  · simp only [AppV10.score_and_risk, String.reduceEq, reduceIte]
    split_ifs <;> simp

/-- C6: both result loggers create a missing log as a header line followed by
the record's line, append exactly one data line (and no header) to an existing
log, and appending two records to a missing log therefore yields one header
line followed by exactly two data lines. -/
theorem C6_logger (r1 r2 : App.LogRow) (s1 s2 : AppV4.PredRow) :
    App.append_log_row r1 none = [App.logHeader, App.logLine r1]
    ∧ (∀ lines, App.append_log_row r2 (some lines) = lines ++ [App.logLine r2])
    ∧ App.append_log_row r2 (some (App.append_log_row r1 none))
        = [App.logHeader, App.logLine r1, App.logLine r2]
    ∧ (App.append_log_row r2 (some (App.append_log_row r1 none))).length = 3
    ∧ AppV4.save_prediction_log s1 none = [AppV4.predHeader, AppV4.predLine s1]
    ∧ (∀ lines, AppV4.save_prediction_log s2 (some lines) = lines ++ [AppV4.predLine s2])
    ∧ AppV4.save_prediction_log s2 (some (AppV4.save_prediction_log s1 none))
        = [AppV4.predHeader, AppV4.predLine s1, AppV4.predLine s2] :=
  ⟨rfl, fun _ => rfl, rfl, rfl, rfl, fun _ => rfl, rfl⟩

/-- C7 counterexample: only `app_v4.py` has the Unknown sentinel — for a label
containing none of the keywords, `app_Pre_final.py`'s and `app.py`'s risk-tier
mappings both return "Low", not "Unknown". -/
theorem C7_counterexample :
    AppPreFinal.risk_tier_from_label "Contentment" = "Low"
    ∧ (App.risk_from_text "Contentment").1 = "Low"
    ∧ ("Low" : String) ≠ "Unknown" := by decide

/-- C7 amended: for a label containing none of the keywords,
`app_v4.py`'s `risk_tier_map` returns the sentinel "Unknown", whose action
lookup falls back to the generic text "Monitor your mental health
regularly."; `app_Pre_final.py`'s and `app.py`'s mappings instead default to
"Low" (the latter with the Low-tier action list). -/
theorem C7_amended (label : String)
    (h1 : strContains (pyLower label) "minimal" = false)
    (h2 : strContains (pyLower label) "mild" = false)
    (h3 : strContains (pyLower label) "moderate" = false)
    (h4 : strContains (pyLower label) "severe" = false)
    (h5 : strContains (pyLower label) "high" = false) :
    AppV4.risk_tier_map label = "Unknown"
    ∧ AppV4.suggested_actions (AppV4.risk_tier_map label)
        = "Monitor your mental health regularly."
    ∧ AppPreFinal.risk_tier_from_label label = "Low"
    ∧ App.risk_from_text label
        = ("Low", ["Keep routine", "Sleep 7–9h", "30m activity"]) := by
  have htier : AppV4.risk_tier_map label = "Unknown" := by
    unfold AppV4.risk_tier_map
    simp [h1, h2, h3, h4]
  refine ⟨htier, by rw [htier]; decide, ?_, ?_⟩
  · unfold AppPreFinal.risk_tier_from_label
    simp [h2, h3, h4, h5]
  · unfold App.risk_from_text
    simp only [h1, h2, h3, h4, Bool.false_eq_true, if_false]
    decide

/-- C7 witness: the amended sentinel statement at the keyword-free label
"Happy". -/
theorem C7_witness :
    strContains (pyLower "Happy") "minimal" = false
    ∧ (AppV4.risk_tier_map "Happy" = "Unknown"
       ∧ AppV4.suggested_actions (AppV4.risk_tier_map "Happy")
           = "Monitor your mental health regularly."
       ∧ AppPreFinal.risk_tier_from_label "Happy" = "Low"
       ∧ App.risk_from_text "Happy"
           = ("Low", ["Keep routine", "Sleep 7–9h", "30m activity"])) :=
  ⟨by decide, C7_amended "Happy" (by decide) (by decide) (by decide)
    (by decide) (by decide)⟩

/-- C8: the risk-tier mappings are deterministic pure functions of the label
(and target): equal inputs give equal tier and equal action list, and the
embedding reads no state besides its arguments, so two invocations with the
same label agree. -/
theorem C8_deterministic (target l1 l2 : String) (h : l1 = l2) :
    App.to_risk target l1 = App.to_risk target l2
    ∧ (App.to_risk target l1).1 = (App.to_risk target l2).1
    ∧ (App.to_risk target l1).2 = (App.to_risk target l2).2
    ∧ AppV4.risk_tier_map l1 = AppV4.risk_tier_map l2
    ∧ AppV4.suggested_actions (AppV4.risk_tier_map l1)
        = AppV4.suggested_actions (AppV4.risk_tier_map l2) := by
  subst h
  exact ⟨rfl, rfl, rfl, rfl, rfl⟩

/-- C8 witness: two invocations at the same concrete label agree. -/
theorem C8_witness :
    ("Moderate Anxiety" : String) = "Moderate Anxiety"
    ∧ (App.to_risk "Anxiety" "Moderate Anxiety" = App.to_risk "Anxiety" "Moderate Anxiety"
       ∧ (App.to_risk "Anxiety" "Moderate Anxiety").1
           = (App.to_risk "Anxiety" "Moderate Anxiety").1
       ∧ (App.to_risk "Anxiety" "Moderate Anxiety").2
           = (App.to_risk "Anxiety" "Moderate Anxiety").2
       ∧ AppV4.risk_tier_map "Moderate Anxiety" = AppV4.risk_tier_map "Moderate Anxiety"
       ∧ AppV4.suggested_actions (AppV4.risk_tier_map "Moderate Anxiety")
           = AppV4.suggested_actions (AppV4.risk_tier_map "Moderate Anxiety")) :=
  ⟨rfl, C8_deterministic "Anxiety" "Moderate Anxiety" "Moderate Anxiety" rfl⟩

/-- C9: `load_safe_csv` (identical in `app_v1.py`, `app_v10.py` and
`app_model.py`) returns an empty DataFrame and leaves the disk untouched when
the file is absent, deletes the file and returns an empty DataFrame when it
cannot be parsed — destroying the log's contents — and returns the parsed
rows with the disk untouched otherwise; it returns normally in every case. -/
theorem C9_load_safe_csv (bad good : AppV10.DiskFile)
    (hbad : bad.parseable = false) (hgood : good.parseable = true) :
    AppV10.load_safe_csv none = (none, [])
    ∧ AppV10.load_safe_csv (some bad) = (none, [])
    ∧ AppV10.load_safe_csv (some good) = (some good, good.rows) := by
  refine ⟨rfl, ?_, ?_⟩ <;> simp [AppV10.load_safe_csv, hbad, hgood]

/-- C9 witness: the loader's three behaviors at concrete file states. -/
theorem C9_witness :
    (AppV10.DiskFile.mk false [["garbled"]]).parseable = false
    ∧ (AppV10.load_safe_csv none = (none, [])
       ∧ AppV10.load_safe_csv (some (AppV10.DiskFile.mk false [["garbled"]])) = (none, [])
       ∧ AppV10.load_safe_csv (some (AppV10.DiskFile.mk true [["a", "b"]]))
           = (some (AppV10.DiskFile.mk true [["a", "b"]]),
              (AppV10.DiskFile.mk true [["a", "b"]]).rows)) :=
  ⟨rfl, C9_load_safe_csv (AppV10.DiskFile.mk false [["garbled"]])
    (AppV10.DiskFile.mk true [["a", "b"]]) rfl rfl⟩

/-- C10: in the screening save block of `app_v10.py`, with the log absent or
parseable, a prediction in private mode computes and displays the result and
leaves the log state unchanged, while with private mode off it appends exactly
the one new row to the rows the log loader reads (creating the file when
empty or absent). -/
theorem C10_private_mode (now lang name age target : String) (values : List Int)
    (log : Option AppV10.DiskFile)
    (hok : (AppV10.load_safe_csv log).1 = log) :
    AppV10.screening_submit true now lang name age values target log
        = (AppV10.screening_output values target, log)
    ∧ (AppV10.screening_submit false now lang name age values target log).1
        = AppV10.screening_output values target
    ∧ (AppV10.screening_submit false now lang name age values target log).2
        = some (AppV10.DiskFile.mk true
            ((AppV10.load_safe_csv log).2
              ++ [AppV10.new_log_row now lang name age target
                    (AppV10.screening_output values target)]))
    ∧ (∀ rows, log = some (AppV10.DiskFile.mk true rows) →
        (AppV10.screening_submit false now lang name age values target log).2
          = some (AppV10.DiskFile.mk true
              (rows ++ [AppV10.new_log_row now lang name age target
                          (AppV10.screening_output values target)]))) := by
  have hsnd : (AppV10.screening_submit false now lang name age values target log).2
      = some (AppV10.DiskFile.mk true
          ((AppV10.load_safe_csv log).2
            ++ [AppV10.new_log_row now lang name age target
                  (AppV10.screening_output values target)])) := by
    unfold AppV10.screening_submit
    by_cases hdf : ((AppV10.load_safe_csv log).2).isEmpty
    · have hnil : (AppV10.load_safe_csv log).2 = [] := by
        simpa [List.isEmpty_iff] using hdf
      simp [hdf, hnil]
    · simp [hdf]
  refine ⟨rfl, ?_, hsnd, ?_⟩
  · unfold AppV10.screening_submit
    by_cases hdf : ((AppV10.load_safe_csv log).2).isEmpty <;> simp [hdf]
  · intro rows hrows
    rw [hsnd, hrows]
    simp [AppV10.load_safe_csv]

/-- C10 witness: private mode leaves a concrete one-row log unchanged. -/
theorem C10_witness :
    (AppV10.load_safe_csv (some (AppV10.DiskFile.mk true [["r"]]))).1
        = some (AppV10.DiskFile.mk true [["r"]])
    ∧ AppV10.screening_submit true "t" "English" "n" "18-24" [3, 3, 3, 3, 3, 3, 3]
        "Anxiety" (some (AppV10.DiskFile.mk true [["r"]]))
        = (AppV10.screening_output [3, 3, 3, 3, 3, 3, 3] "Anxiety",
           some (AppV10.DiskFile.mk true [["r"]])) :=
  ⟨by decide, (C10_private_mode "t" "English" "n" "18-24" "Anxiety"
    [3, 3, 3, 3, 3, 3, 3] (some (AppV10.DiskFile.mk true [["r"]])) (by decide)).1⟩

end MentalHealth
